import Mathlib

/-!
Verification development for the Playwright screenshot batch tool.

The definitions below are a shallow embedding of the Python source:
  * `convertCookie` / `translateCookies` embed the per-record conversion
    loop of `load_playwright_cookies` in `src/utils/playwright_utils.py`
    (lines 39-75).
  * `take_playwright_screenshot` embeds the control flow of the function
    of the same name in `src/utils/playwright_utils.py` (lines 86-145).
  * `is_url_processed`, `validUrl`, `processRowEffects`, `runCounters`
    and `mainTrace` embed the orchestrator loop of `main` in
    `src/main_playwright.py` (lines 117-227) and the sheet helper
    `is_url_processed` in `src/utils/gsheet_utils.py` (lines 44-61).

External effects (Playwright, Google APIs, the filesystem) are modelled
by boolean oracles recording whether each call would succeed, so that the
pure control flow of the source is captured exactly.
-/

/-- A cookie record as read from the Selenium-format JSON file.
`none` models an absent key or a JSON `null` (both give `None` under
Python's `dict.get`). -/
structure SeleniumCookie where
  name : Option String
  value : Option String
  domain : Option String
  path : Option String
  httpOnly : Option Bool
  secure : Option Bool
  sameSite : Option String
  expirationDate : Option Rat
deriving DecidableEq

/-- A cookie record in the Playwright `add_cookies` format, as built by
the dict literal at lines 60-68 of `playwright_utils.py`. -/
structure PlaywrightCookie where
  name : String
  value : String
  domain : Option String
  path : String
  httpOnly : Bool
  secure : Bool
  sameSite : String
  expires : Option Rat
deriving DecidableEq

/-- Python `str.lower()`, as a per-character map over the string's
characters (`Char.toLower` lowers the ASCII range, which covers the
values compared against `strict` / `lax` / `none`). -/
def pyLower (s : String) : String := ⟨s.data.map Char.toLower⟩

/-- Python `str.startswith(pre)`. -/
def pyStartsWith (s pre : String) : Bool := pre.data.isPrefixOf s.data

/-- Python `str.strip()`: remove whitespace from both ends. -/
def pyStrip (s : String) : String :=
  ⟨((s.data.dropWhile Char.isWhitespace).reverse.dropWhile Char.isWhitespace).reverse⟩

/-- Python `s[1:]`. -/
def pyDropFirst (s : String) : String := ⟨s.data.drop 1⟩

/-- The sameSite mapping of lines 45-58 of `playwright_utils.py`:
`valid_samesite_for_playwright` starts at `"Lax"`; a string value is
lowercased and matched against strict/lax/none; a null or absent value
defaults from the `secure` flag. -/
def mapSameSite (sameSite : Option String) (secure : Bool) : String :=
  match sameSite with
  | some s =>
    if pyLower s = "strict" then "Strict"
    else if pyLower s = "lax" then "Lax"
    else if pyLower s = "none" then "None"
    else "Lax"
  | none => if secure then "None" else "Lax"

/-- The leading-dot domain normalization of lines 72-73:
`if pc['domain'] and pc['domain'].startswith('.')`, then drop the dot.
Python truthiness makes the empty string skip the strip. -/
def normalizeDomain (domain : Option String) : Option String :=
  match domain with
  | some d => if d ≠ "" ∧ pyStartsWith d "." then some (pyDropFirst d) else some d
  | none => none

/-- One iteration of the conversion loop, lines 40-75 of
`playwright_utils.py`. The guard is Python's
`if not sc.get('name') or sc.get('value') is None: continue`:
a missing or empty (falsy) name skips the record, while only a missing
(`None`) value does; an empty-string value passes. -/
def convertCookie (sc : SeleniumCookie) : Option PlaywrightCookie :=
  match sc.name, sc.value with
  | some n, some v =>
    if n = "" then none
    else
      some { name := n
             value := v
             domain := normalizeDomain sc.domain
             path := sc.path.getD "/"
             httpOnly := sc.httpOnly.getD false
             secure := sc.secure.getD false
             sameSite := mapSameSite sc.sameSite (sc.secure.getD false)
             expires := sc.expirationDate }
  | _, _ => none

/-- The whole conversion loop: records whose conversion is skipped
contribute nothing to `playwright_cookies`. -/
def translateCookies (scs : List SeleniumCookie) : List PlaywrightCookie :=
  scs.filterMap convertCookie

example :
    convertCookie
      { name := some "sid", value := some "abc", domain := some ".example.com",
        path := none, httpOnly := none, secure := some true,
        sameSite := none, expirationDate := none } =
    some { name := "sid", value := "abc", domain := some "example.com",
           path := "/", httpOnly := false, secure := true,
           sameSite := "None", expires := none } := rfl

example :
    convertCookie
      { name := some "", value := some "v", domain := none,
        path := none, httpOnly := none, secure := none,
        sameSite := none, expirationDate := none } = none := rfl

example :
    convertCookie
      { name := some "a", value := some "", domain := none,
        path := none, httpOnly := none, secure := none,
        sameSite := some "STRICT", expirationDate := none } =
    some { name := "a", value := "", domain := none,
           path := "/", httpOnly := false, secure := false,
           sameSite := "Strict", expires := none } := rfl

/-- Oracle for the external calls made inside `take_playwright_screenshot`
(`playwright_utils.py`, lines 86-145): whether `context.new_page()`,
`page.goto`, the consent-banner click, the `page.evaluate` dimension
query, `page.screenshot` and the best-effort error screenshot would each
succeed. -/
structure CaptureEnv where
  newPageOk : Bool
  navOk : Bool
  consentClickOk : Bool
  dimensionsOk : Bool
  screenshotOk : Bool
  errorShotOk : Bool
deriving DecidableEq

/-- Observable events of one `take_playwright_screenshot` call, in
program order. -/
inductive CaptureEvent where
  | pageOpened
  | navigated
  | consentClicked
  | consentFailed
  | gotDimensions
  | dimensionsFailed
  | screenshotSaved
  | errorShotSaved
  | errorShotFailed
  | pageClosed
deriving DecidableEq

/-- Result of one `take_playwright_screenshot` call: the boolean the
function returns, plus the trace of events it performed. -/
structure CaptureResult where
  success : Bool
  events : List CaptureEvent
deriving DecidableEq

/-- Control flow of `take_playwright_screenshot` (`playwright_utils.py`,
lines 86-145). `page.goto` raising is caught by the outer handlers
(lines 124-141), which attempt a best-effort error screenshot and return
`False`. The consent click (lines 102-111) and the dimension query
(lines 114-118) have local handlers that only log. The `finally` block
(lines 142-145) closes the page whenever one was opened. If `new_page`
itself raises, `page` stays `None`: no event happens and the call
returns `False`. -/
def take_playwright_screenshot (env : CaptureEnv) : CaptureResult :=
  if ¬ env.newPageOk then { success := false, events := [] }
  else if ¬ env.navOk then
    { success := false
      events := [.pageOpened,
                 if env.errorShotOk then .errorShotSaved else .errorShotFailed,
                 .pageClosed] }
  else
    let consentEv : CaptureEvent :=
      if env.consentClickOk then .consentClicked else .consentFailed
    let dimEv : CaptureEvent :=
      if env.dimensionsOk then .gotDimensions else .dimensionsFailed
    if env.screenshotOk then
      { success := true
        events := [.pageOpened, .navigated, consentEv, dimEv,
                   .screenshotSaved, .pageClosed] }
    else
      { success := false
        events := [.pageOpened, .navigated, consentEv, dimEv,
                   if env.errorShotOk then .errorShotSaved else .errorShotFailed,
                   .pageClosed] }

/-- `is_url_processed` (`gsheet_utils.py`, lines 44-61), applied to the
content of the marker cell: `none` models an empty `values` response,
`some v` a cell holding `v`. The check is
`values[0][0].strip().startswith('https://drive.google.com')`. -/
def is_url_processed (cell : Option String) : Bool :=
  match cell with
  | some v => pyStartsWith (pyStrip v) "https://drive.google.com"
  | none => false

/-- The URL validation of `main_playwright.py`, lines 140-146:
`not url or not url.strip().startswith(('http://', 'https://'))` fails
the row; `validUrl` is the negation of that test. -/
def validUrl (url : String) : Bool :=
  url ≠ "" ∧ (pyStartsWith (pyStrip url) "http://" ∨ pyStartsWith (pyStrip url) "https://")

/-- One row of the orchestrator loop together with the behaviour of the
external world on that row: the marker-cell content consulted by
`is_url_processed`, the oracle for the screenshot capture, and whether
`gdrive_utils.upload_file`, `gsheet_utils.update_metadata` and
`os.remove` would succeed. -/
structure RowEnv where
  url : String
  markerCell : Option String
  capture : CaptureEnv
  uploadOk : Bool
  updateOk : Bool
  removeOk : Bool
deriving DecidableEq

/-- How the loop classified one row: which of the three counters of
`main` it incremented. -/
inductive RowOutcome where
  | success
  | skipped
  | failed
deriving DecidableEq

/-- Everything observable about the processing of one row by the loop
body of `main` (`main_playwright.py`, lines 133-198, minus the inter-row
delay): the counter incremented, which external steps ran, whether the
`finally` cleanup attempted `os.remove(screenshot_path)`, and whether
the screenshot artifact still exists afterwards. -/
structure RowEffects where
  outcome : RowOutcome
  captureInvoked : Bool
  uploadInvoked : Bool
  updateInvoked : Bool
  removeAttempted : Bool
  fileExistsAfter : Bool
deriving DecidableEq

/-- The loop body of `main` (`main_playwright.py`, lines 140-193).
Order of checks as in the source: URL validation first (lines 140-146),
then the already-processed check (lines 148-155), then the capture; on
capture success the `try` of lines 166-181 runs upload then sheet
update, counting success only if both succeed, and its `finally`
(lines 182-188) removes the local file if it exists, swallowing an
`OSError` from `os.remove`. On capture failure no file was created and
no cleanup runs (lines 189-193). -/
def processRowEffects (r : RowEnv) : RowEffects :=
  if ¬ validUrl r.url then
    { outcome := .failed, captureInvoked := false, uploadInvoked := false,
      updateInvoked := false, removeAttempted := false, fileExistsAfter := false }
  else if is_url_processed r.markerCell then
    { outcome := .skipped, captureInvoked := false, uploadInvoked := false,
      updateInvoked := false, removeAttempted := false, fileExistsAfter := false }
  else if (take_playwright_screenshot r.capture).success then
    if r.uploadOk then
      if r.updateOk then
        { outcome := .success, captureInvoked := true, uploadInvoked := true,
          updateInvoked := true, removeAttempted := true,
          fileExistsAfter := !r.removeOk }
      else
        { outcome := .failed, captureInvoked := true, uploadInvoked := true,
          updateInvoked := true, removeAttempted := true,
          fileExistsAfter := !r.removeOk }
    else
      { outcome := .failed, captureInvoked := true, uploadInvoked := true,
        updateInvoked := false, removeAttempted := true,
        fileExistsAfter := !r.removeOk }
  else
    { outcome := .failed, captureInvoked := true, uploadInvoked := false,
      updateInvoked := false, removeAttempted := false, fileExistsAfter := false }

/-- The three counters accumulated by `main`
(`main_playwright.py`, lines 117-119). -/
structure Counters where
  success : Nat
  skipped : Nat
  failed : Nat
deriving DecidableEq

/-- One counter increment, following the branch the loop body took
(lines 145, 154, 176, 181, 193 of `main_playwright.py`). -/
def stepCounters (c : Counters) (r : RowEnv) : Counters :=
  match (processRowEffects r).outcome with
  | .success => { c with success := c.success + 1 }
  | .skipped => { c with skipped := c.skipped + 1 }
  | .failed => { c with failed := c.failed + 1 }

/-- The counters after running the loop over `rows` starting from `c`. -/
def runCountersFrom (c : Counters) (rows : List RowEnv) : Counters :=
  rows.foldl stepCounters c

/-- The counters reported by the final summary
(`main_playwright.py`, lines 219 and 225-227). -/
def runCounters (rows : List RowEnv) : Counters :=
  runCountersFrom { success := 0, skipped := 0, failed := 0 } rows

/-- The final summary: total together with the three counters
(`main_playwright.py`, lines 219 and 224-227; the total is the length of
`urls_to_process`, line 113). -/
structure Summary where
  total : Nat
  success : Nat
  skipped : Nat
  failed : Nat
deriving DecidableEq

/-- The summary emitted at the end of `main`. -/
def mainSummary (rows : List RowEnv) : Summary :=
  let c := runCounters rows
  { total := rows.length, success := c.success, skipped := c.skipped,
    failed := c.failed }

/-- Top-level events of the orchestrator loop: the processing of one row
(with its outcome) or the inter-row `time.sleep`. -/
inductive LoopEvent where
  | processed (o : RowOutcome)
  | delay
deriving DecidableEq

/-- Whether the loop body for a row runs to its end without hitting a
`continue`: the `continue` at line 146 fires when URL validation fails,
and the one at line 155 when the marker check finds a Drive link. Only
a row that avoids both reaches the `time.sleep` at line 198. -/
def reachesSleep (r : RowEnv) : Bool :=
  validUrl r.url && !(is_url_processed r.markerCell)

/-- Event trace of the loop of `main` with the delay logic of
lines 195-198: after a row, `time.sleep` runs iff the body was not cut
short by one of the `continue` statements at lines 146 and 155
(`reachesSleep`) and `current_loop_index < total_urls`, where
`current_loop_index = i + 1` for the `i`-th (0-based) row and
`total_urls` is the total row count. -/
def mainTraceAux (total : Nat) : Nat → List RowEnv → List LoopEvent
  | _, [] => []
  | i, r :: rs =>
    .processed (processRowEffects r).outcome ::
      (if reachesSleep r ∧ i + 1 < total then [LoopEvent.delay] else [])
        ++ mainTraceAux total (i + 1) rs

/-- The full event trace of one run of `main` over `rows`. -/
def mainTrace (rows : List RowEnv) : List LoopEvent :=
  mainTraceAux rows.length 0 rows

/-- Concrete cookie with `sameSite` null and `secure` true, and its
image under the translator. -/
def scSecureNull : SeleniumCookie :=
  { name := some "sid", value := some "abc", domain := some ".example.com",
    path := none, httpOnly := none, secure := some true,
    sameSite := none, expirationDate := none }

/-- The translator's output for `scSecureNull`. -/
def pcSecureNull : PlaywrightCookie :=
  { name := "sid", value := "abc", domain := some "example.com",
    path := "/", httpOnly := false, secure := true,
    sameSite := "None", expires := none }

/-- Unfolding of `convertCookie` when the guard passes: both fields are
present and the name is nonempty. -/
lemma convertCookie_some (sc : SeleniumCookie) (n v : String)
    (hn : sc.name = some n) (hv : sc.value = some v) (hne : n ≠ "") :
    convertCookie sc =
      some { name := n, value := v, domain := normalizeDomain sc.domain,
             path := sc.path.getD "/", httpOnly := sc.httpOnly.getD false,
             secure := sc.secure.getD false,
             sameSite := mapSameSite sc.sameSite (sc.secure.getD false),
             expires := sc.expirationDate } := by
  rw [convertCookie, hn, hv]
  exact if_neg hne

/-- Unfolding of `convertCookie` when the guard rejects the record. -/
lemma convertCookie_skip (sc : SeleniumCookie)
    (h : sc.name = none ∨ sc.name = some "" ∨ sc.value = none) :
    convertCookie sc = none := by
  rcases h with h | h | h
  · rcases hv : sc.value with _ | v <;> rw [convertCookie, h, hv]
  · rcases hv : sc.value with _ | v <;> rw [convertCookie, h, hv]
    exact if_pos rfl
  · rcases hn : sc.name with _ | n <;> rw [convertCookie, hn, h]

/-- C1: for a cookie record that passes the name/value guard, 'strict',
'lax' and 'none' (compared case-insensitively, i.e. after Python's
lowercasing) map to 'Strict', 'Lax', 'None' whatever the secure flag is,
and an absent or null sameSite maps to 'None' when the secure flag is
true and to 'Lax' when it is false or absent. -/
theorem cookie_sameSite_mapping (sc : SeleniumCookie) (pc : PlaywrightCookie)
    (h : convertCookie sc = some pc) :
    (∀ s, sc.sameSite = some s → pyLower s = "strict" → pc.sameSite = "Strict") ∧
    (∀ s, sc.sameSite = some s → pyLower s = "lax" → pc.sameSite = "Lax") ∧
    (∀ s, sc.sameSite = some s → pyLower s = "none" → pc.sameSite = "None") ∧
    (sc.sameSite = none →
      pc.sameSite = if sc.secure.getD false then "None" else "Lax") := by
  rcases hname : sc.name with _ | n
  · rw [convertCookie_skip sc (Or.inl hname)] at h; exact absurd h (by simp)
  rcases hvalue : sc.value with _ | v
  · rw [convertCookie_skip sc (Or.inr (Or.inr hvalue))] at h
    exact absurd h (by simp)
  by_cases hn : n = ""
  · rw [hn] at hname
    rw [convertCookie_skip sc (Or.inr (Or.inl hname))] at h
    exact absurd h (by simp)
  · rw [convertCookie_some sc n v hname hvalue hn, Option.some.injEq] at h
    have hss : pc.sameSite = mapSameSite sc.sameSite (sc.secure.getD false) := by
      rw [← h]
    refine ⟨?_, ?_, ?_, ?_⟩
    · intro s hs hl
      rw [hss, hs, mapSameSite, hl]
      simp
    · intro s hs hl
      rw [hss, hs, mapSameSite, hl]
      simp
    · intro s hs hl
      rw [hss, hs, mapSameSite, hl]
      simp
    · intro hs
      rw [hss, hs, mapSameSite]

/-- Witness for C1 at a concrete secure cookie with null sameSite. -/
theorem cookie_sameSite_mapping_witness :
    convertCookie scSecureNull = some pcSecureNull ∧
    pcSecureNull.sameSite = "None" :=
  ⟨rfl, (cookie_sameSite_mapping scSecureNull pcSecureNull rfl).2.2.2 rfl⟩

/-- A record whose name key is present but holds the empty string, with
a present value. -/
def scEmptyName : SeleniumCookie :=
  { name := some "", value := some "v", domain := none, path := none,
    httpOnly := none, secure := none, sameSite := none, expirationDate := none }

/-- C2 counterexample: `scEmptyName` has both a name field and a value
field present, yet the translator drops it (Python's guard
`not sc.get('name')` rejects any falsy name, including the empty
string), so a record with both fields present need not appear in the
output. -/
theorem cookie_guard_counterexample :
    scEmptyName.name.isSome = true ∧ scEmptyName.value.isSome = true ∧
    convertCookie scEmptyName = none ∧ translateCookies [scEmptyName] = [] :=
  ⟨rfl, rfl, rfl, rfl⟩

/-- A record with no name key at all. -/
def scNoName : SeleniumCookie :=
  { name := none, value := some "v", domain := none, path := none,
    httpOnly := none, secure := none, sameSite := none, expirationDate := none }

/-- C2 amended: every record whose name is missing or empty, or whose
value is missing, is excluded from the translator's output; every record
with a nonempty name and a present value contributes a record to the
output. -/
theorem cookie_guard_filter (scs : List SeleniumCookie) (sc : SeleniumCookie)
    (hmem : sc ∈ scs) :
    ((sc.name = none ∨ sc.name = some "" ∨ sc.value = none) →
      convertCookie sc = none) ∧
    (∀ n v, sc.name = some n → n ≠ "" → sc.value = some v →
      ∃ pc, convertCookie sc = some pc ∧ pc ∈ translateCookies scs) := by
  constructor
  · exact convertCookie_skip sc
  · intro n v hn hne hv
    have hsome : (convertCookie sc).isSome := by
      rw [convertCookie_some sc n v hn hv hne]
      rfl
    obtain ⟨pc, hpc⟩ := Option.isSome_iff_exists.mp hsome
    exact ⟨pc, hpc, List.mem_filterMap.mpr ⟨sc, hmem, hpc⟩⟩

/-- Witness for the amended C2: in the list `[scNoName, scSecureNull]`
the nameless record is excluded and the complete record contributes. -/
theorem cookie_guard_filter_witness :
    convertCookie scNoName = none ∧
    ∃ pc, convertCookie scSecureNull = some pc ∧
      pc ∈ translateCookies [scNoName, scSecureNull] :=
  ⟨(cookie_guard_filter [scNoName, scSecureNull] scNoName (by simp)).1
      (Or.inl rfl),
   (cookie_guard_filter [scNoName, scSecureNull] scSecureNull (by simp)).2
      "sid" "abc" rfl (by decide) rfl⟩

/-- C10: the guard is asymmetric. A record with a nonempty name and a
value key holding the empty string is kept (only a null or absent value
is rejected, since the test is `sc.get('value') is None`), while a
record whose name is the empty string or absent is dropped (the test
`not sc.get('name')` rejects any falsy name). -/
theorem cookie_guard_asymmetry (sc : SeleniumCookie) :
    (∀ n, sc.name = some n → n ≠ "" → sc.value = some "" →
      (convertCookie sc).isSome = true) ∧
    ((sc.name = none ∨ sc.name = some "") → convertCookie sc = none) ∧
    (∀ n v, sc.name = some n → n ≠ "" → sc.value = some v →
      (convertCookie sc).isSome = true) := by
  refine ⟨fun n hn hne hv => ?_, ?_, fun n v hn hne hv => ?_⟩
  · rw [convertCookie_some sc n "" hn hv hne]; rfl
  · rintro (h | h)
    · exact convertCookie_skip sc (Or.inl h)
    · exact convertCookie_skip sc (Or.inr (Or.inl h))
  · rw [convertCookie_some sc n v hn hv hne]; rfl

/-- A record with a nonempty name and an empty-string value. -/
def scEmptyValue : SeleniumCookie :=
  { name := some "a", value := some "", domain := none, path := none,
    httpOnly := none, secure := none, sameSite := none, expirationDate := none }

/-- Witness for C10: the empty-string value is kept, the empty-string
name is dropped. -/
theorem cookie_guard_asymmetry_witness :
    (convertCookie scEmptyValue).isSome = true ∧
    convertCookie scEmptyName = none :=
  ⟨(cookie_guard_asymmetry scEmptyValue).1 "a" rfl (by decide) rfl,
   (cookie_guard_asymmetry scEmptyName).2.1 (Or.inr rfl)⟩

/-- Row whose processing succeeds end to end. -/
def rowSucceeds : RowEnv :=
  { url := "https://example.com/a", markerCell := none,
    capture := ⟨true, true, true, true, true, true⟩,
    uploadOk := true, updateOk := true, removeOk := true }

/-- Row whose marker cell already holds a Drive link. -/
def rowAlreadyDone : RowEnv :=
  { url := "https://example.com/b",
    markerCell := some "https://drive.google.com/file/d/abc",
    capture := ⟨true, true, true, true, true, true⟩,
    uploadOk := true, updateOk := true, removeOk := true }

/-- Row whose navigation times out, so the capture fails. -/
def rowCaptureTimesOut : RowEnv :=
  { url := "https://example.com/c", markerCell := none,
    capture := ⟨true, false, true, true, true, true⟩,
    uploadOk := true, updateOk := true, removeOk := true }

/-- The counters after a run from an arbitrary start are the start plus
the counters of a run from zero. -/
lemma runCountersFrom_eq (rows : List RowEnv) :
    ∀ c : Counters, runCountersFrom c rows =
      { success := c.success + (runCounters rows).success,
        skipped := c.skipped + (runCounters rows).skipped,
        failed := c.failed + (runCounters rows).failed } := by
  induction rows with
  | nil => intro c; simp [runCounters, runCountersFrom]
  | cons r rs ih =>
    intro c
    have h1 : runCountersFrom c (r :: rs) = runCountersFrom (stepCounters c r) rs := rfl
    have h2 : runCounters (r :: rs)
        = runCountersFrom (stepCounters { success := 0, skipped := 0, failed := 0 } r) rs := rfl
    rw [h1, h2, ih (stepCounters c r),
      ih (stepCounters { success := 0, skipped := 0, failed := 0 } r)]
    cases h : (processRowEffects r).outcome <;>
      simp [stepCounters, h] <;> omega

/-- Each processed row bumps exactly one counter, so the counters sum to
the number of rows. -/
lemma runCountersFrom_sum (rows : List RowEnv) :
    ∀ c : Counters,
      (runCountersFrom c rows).success + (runCountersFrom c rows).skipped
          + (runCountersFrom c rows).failed
        = c.success + c.skipped + c.failed + rows.length := by
  induction rows with
  | nil => intro c; simp [runCountersFrom]
  | cons r rs ih =>
    intro c
    have h1 : runCountersFrom c (r :: rs) = runCountersFrom (stepCounters c r) rs := rfl
    rw [h1, ih (stepCounters c r)]
    cases h : (processRowEffects r).outcome <;>
      simp [stepCounters, h] <;> omega

/-- C3: every row is counted in exactly one of the three counters, so
success + skipped + failed = total; and on the 3-row scenario (row 1
succeeds, row 2 already processed, row 3's capture times out) the
summary is total=3, success=1, skipped=1, failed=1. -/
theorem summary_partition (rows : List RowEnv) :
    (mainSummary rows).success + (mainSummary rows).skipped
        + (mainSummary rows).failed = (mainSummary rows).total ∧
    mainSummary [rowSucceeds, rowAlreadyDone, rowCaptureTimesOut]
      = { total := 3, success := 1, skipped := 1, failed := 1 } := by
  constructor
  · have := runCountersFrom_sum rows { success := 0, skipped := 0, failed := 0 }
    simpa [mainSummary, runCounters] using this
  · rfl

/-- C4: on a row where the capture created a screenshot file (the
capture succeeded), the `finally` cleanup attempts the deletion whatever
the outcome of the upload-and-record step was; when the `os.remove`
call goes through, the file no longer exists after the row; and a
deletion failure does not change how the row is counted. -/
theorem artifact_cleanup (r : RowEnv) (b : Bool)
    (hv : validUrl r.url = true)
    (hp : is_url_processed r.markerCell = false)
    (hc : (take_playwright_screenshot r.capture).success = true) :
    (processRowEffects r).removeAttempted = true ∧
    (r.removeOk = true → (processRowEffects r).fileExistsAfter = false) ∧
    (processRowEffects { r with removeOk := b }).outcome
      = (processRowEffects r).outcome := by
  by_cases hu : r.uploadOk <;> by_cases hU : r.updateOk <;>
    simp [processRowEffects, hv, hp, hc, hu, hU]

/-- Witness for C4 on the all-succeeding row, with a failing remove on
the modified copy. -/
theorem artifact_cleanup_witness :
    (processRowEffects rowSucceeds).removeAttempted = true ∧
    (rowSucceeds.removeOk = true →
      (processRowEffects rowSucceeds).fileExistsAfter = false) ∧
    (processRowEffects { rowSucceeds with removeOk := false }).outcome
      = (processRowEffects rowSucceeds).outcome :=
  artifact_cleanup rowSucceeds false rfl rfl rfl

/-- Row with an unacceptable URL scheme whose marker cell nevertheless
holds a Drive link. -/
def rowFtpAlreadyDone : RowEnv :=
  { url := "ftp://x", markerCell := some "https://drive.google.com/file/d/xyz",
    capture := ⟨true, true, true, true, true, true⟩,
    uploadOk := true, updateOk := true, removeOk := true }

/-- C5 counterexample: URL validation runs before the marker check
(`main_playwright.py`, lines 140-155), so a row whose marker cell holds
a Drive link but whose URL has a bad scheme is counted failed, not
skipped. -/
theorem skip_marker_counterexample :
    is_url_processed rowFtpAlreadyDone.markerCell = true ∧
    (processRowEffects rowFtpAlreadyDone).outcome = .failed ∧
    ¬ (processRowEffects rowFtpAlreadyDone).outcome = .skipped :=
  ⟨rfl, rfl, by decide⟩

/-- C5 amended: on a row that passes URL validation, a marker cell
matching the processed pattern makes the loop count the row as skipped
and invoke neither capture, upload, nor sheet update. -/
theorem skip_marker_no_recapture (r : RowEnv)
    (hv : validUrl r.url = true)
    (hp : is_url_processed r.markerCell = true) :
    (processRowEffects r).outcome = .skipped ∧
    (processRowEffects r).captureInvoked = false ∧
    (processRowEffects r).uploadInvoked = false ∧
    (processRowEffects r).updateInvoked = false := by
  simp [processRowEffects, hv, hp]

/-- Witness for the amended C5 on the already-processed row. -/
theorem skip_marker_no_recapture_witness :
    (processRowEffects rowAlreadyDone).outcome = .skipped ∧
    (processRowEffects rowAlreadyDone).captureInvoked = false ∧
    (processRowEffects rowAlreadyDone).uploadInvoked = false ∧
    (processRowEffects rowAlreadyDone).updateInvoked = false :=
  skip_marker_no_recapture rowAlreadyDone rfl rfl

/-- C6: a row whose URL is empty or does not start (after stripping)
with `http://` or `https://` is counted failed without invoking the
capture, and the loop proceeds to the remaining rows, whose counters are
unchanged by the failed row except for the failed counter. -/
theorem invalid_url_failed (r : RowEnv) (rest : List RowEnv)
    (h : r.url = "" ∨ (pyStartsWith (pyStrip r.url) "http://" = false ∧
                       pyStartsWith (pyStrip r.url) "https://" = false)) :
    (processRowEffects r).outcome = .failed ∧
    (processRowEffects r).captureInvoked = false ∧
    (runCounters (r :: rest)).failed = (runCounters rest).failed + 1 ∧
    (runCounters (r :: rest)).success = (runCounters rest).success ∧
    (runCounters (r :: rest)).skipped = (runCounters rest).skipped := by
  have hv : validUrl r.url = false := by
    rcases h with h | ⟨h1, h2⟩
    · simp [validUrl, h]
    · simp [validUrl, h1, h2]
  have hout : (processRowEffects r).outcome = .failed ∧
      (processRowEffects r).captureInvoked = false := by
    constructor <;> simp [processRowEffects, hv]
  have hstep : runCounters (r :: rest)
      = runCountersFrom (stepCounters { success := 0, skipped := 0, failed := 0 } r) rest := rfl
  have hsc : stepCounters { success := 0, skipped := 0, failed := 0 } r
      = { success := 0, skipped := 0, failed := 1 } := by
    simp [stepCounters, hout.1]
  refine ⟨hout.1, hout.2, ?_, ?_, ?_⟩ <;>
    (rw [hstep, hsc, runCountersFrom_eq rest]; simp [Nat.add_comm])

/-- Row with an unacceptable scheme and an empty marker cell. -/
def rowFtp : RowEnv :=
  { url := "ftp://x", markerCell := none,
    capture := ⟨true, true, true, true, true, true⟩,
    uploadOk := true, updateOk := true, removeOk := true }

/-- Witness for C6 on the `ftp://x` row followed by one good row. -/
theorem invalid_url_failed_witness :
    (processRowEffects rowFtp).outcome = .failed ∧
    (processRowEffects rowFtp).captureInvoked = false ∧
    (runCounters [rowFtp, rowSucceeds]).failed
      = (runCounters [rowSucceeds]).failed + 1 ∧
    (runCounters [rowFtp, rowSucceeds]).success
      = (runCounters [rowSucceeds]).success ∧
    (runCounters [rowFtp, rowSucceeds]).skipped
      = (runCounters [rowSucceeds]).skipped :=
  invalid_url_failed rowFtp [rowSucceeds] (Or.inr ⟨rfl, rfl⟩)

/-- C7: the boolean returned by `take_playwright_screenshot` is exactly
"the page opened, the navigation succeeded and the final screenshot
succeeded"; in particular it never depends on the outcome of the
cookie-consent click (nor of the dimension query or of the best-effort
error screenshot), whose handlers only log. A `new_page` failure is
caught by the same outer handler as a navigation error
(`except Exception`, line 133). -/
theorem capture_failure_conditions (env : CaptureEnv) (b : Bool) :
    (take_playwright_screenshot env).success
      = (env.newPageOk && env.navOk && env.screenshotOk) ∧
    (take_playwright_screenshot { env with consentClickOk := b }).success
      = (take_playwright_screenshot env).success := by
  rcases env with ⟨np, nav, cc, dim, ss, es⟩
  cases np <;> cases nav <;> cases ss <;>
    simp [take_playwright_screenshot]

/-- C8: whenever a page was opened during a `take_playwright_screenshot`
call, the trace also records its closing, on the success path and on
every error path. -/
theorem page_always_closed (env : CaptureEnv)
    (h : CaptureEvent.pageOpened ∈ (take_playwright_screenshot env).events) :
    CaptureEvent.pageClosed ∈ (take_playwright_screenshot env).events := by
  rcases env with ⟨np, nav, cc, dim, ss, es⟩
  cases np <;> cases nav <;> cases cc <;> cases dim <;> cases ss <;> cases es <;>
    simp_all [take_playwright_screenshot]

/-- Witness for C8 on a navigation-timeout call, where a page was opened
and the call fails. -/
theorem page_always_closed_witness :
    CaptureEvent.pageClosed
      ∈ (take_playwright_screenshot ⟨true, false, true, true, true, true⟩).events :=
  page_always_closed ⟨true, false, true, true, true, true⟩ (by decide)

/-- C9 counterexample: the `continue` at line 155 jumps past the
`time.sleep` at line 198, so in a two-row run whose first row is
already processed, no delay follows the first (non-last) row at all —
the delay is not inserted "regardless of outcome". -/
theorem inter_row_delay_counterexample :
    mainTrace [rowAlreadyDone, rowSucceeds]
      = [LoopEvent.processed .skipped, LoopEvent.processed .success] ∧
    ¬ LoopEvent.delay ∈ mainTrace [rowAlreadyDone, rowSucceeds] :=
  ⟨rfl, by decide⟩

/-- The trace of the loop, row by row: each row contributes its
processing event, followed by a delay exactly when the body was not cut
short by a `continue` and the row is not the last. -/
lemma mainTraceAux_flatten (rows : List RowEnv) :
    ∀ (i total : Nat),
      mainTraceAux total i rows
        = ((rows.enumFrom i).map fun p =>
            LoopEvent.processed (processRowEffects p.2).outcome ::
              (if reachesSleep p.2 ∧ p.1 + 1 < total then [LoopEvent.delay]
               else [])).flatten := by
  induction rows with
  | nil => intro i total; rfl
  | cons r rs ih =>
    intro i total
    rw [mainTraceAux]
    show _ = (((i, r) :: rs.enumFrom (i + 1)).map _).flatten
    rw [List.map_cons, List.flatten_cons, ih (i + 1) total]

/-- C9 amended: a fixed delay follows a row exactly when that row is
not the last and its loop body ran past the URL-validation and
already-processed checks (no `continue`); so the delay never precedes
the first row, follows every non-last row that reached the capture
stage whatever its capture/upload outcome, and does not follow rows
failed at validation or skipped as already processed. Concretely, for
the 3-row run (success, skipped, capture-timeout) the trace holds a
delay only between the first and the second row. -/
theorem inter_row_delay_amended (rows : List RowEnv) :
    mainTrace rows
      = ((rows.enum).map fun p =>
          LoopEvent.processed (processRowEffects p.2).outcome ::
            (if reachesSleep p.2 ∧ p.1 + 1 < rows.length then [LoopEvent.delay]
             else [])).flatten ∧
    mainTrace [rowSucceeds, rowAlreadyDone, rowCaptureTimesOut]
      = [LoopEvent.processed .success, LoopEvent.delay,
         LoopEvent.processed .skipped, LoopEvent.processed .failed] :=
  ⟨mainTraceAux_flatten rows 0 rows.length, rfl⟩
